import Mathlib

/-
Verification of the option-application and validation layer of the
termdash button widget (options.go and write_options.go).

The embedding is shallow: the Go `options` and `writeOptions` records
become Lean structures, each functional option (a Go closure mutating the
record) becomes a Lean function on the record, and sequential application
becomes a left fold.  Go `int` is modelled as `Int` (no value in this
subsystem approaches the 64-bit range), and the `error` results of
`validate` are modelled as `Option String` carrying the formatted message.

External collaborator types (the cell color type, the per-cell styling
directive, the keyboard key identifier) and the widget constructor that
drives the pipeline live elsewhere in the repository; they are modelled
from the spec, and each such definition says so in its doc comment.
-/

namespace Termdash

/-- Modelled from the spec: the external `cell.Color` type, used opaquely
as a color value.  Distinct named colors are distinct; numbered colors
carry their numeric value (the source uses `cell.Color(250)`). -/
inductive Color where
  | black
  | cyan
  | value (n : Int)
deriving DecidableEq

/-- Modelled from the spec: the external per-cell styling directive
(`cell.Option`).  This subsystem only constructs a set-foreground-color
directive and distinguishes foreground-color directives from others, so
one non-foreground variant suffices. -/
inductive CellOption where
  | FgColor (c : Color)
  | BgColor (c : Color)
deriving DecidableEq

/-- Modelled from the spec: the external `keyboard.Key` identifier, an
equality-comparable token.  `uninit` stands for the Go zero value of the
type, which is not the Enter key (special keys are nonzero). -/
inductive KeyboardKey where
  | Enter
  | Esc
  | uninit
deriving DecidableEq

/-- The `options` record holding the provided widget options
(options.go). -/
structure options where
  fillColor : Color
  textColor : Color
  shadowColor : Color
  height : Int
  width : Int
  key : KeyboardKey
deriving DecidableEq

/-- DefaultFillColor is the default for the FillColor option
(`cell.ColorCyan`). -/
def DefaultFillColor : Color := Color.cyan

/-- DefaultTextColor is the default for the TextColor option
(`cell.ColorBlack`). -/
def DefaultTextColor : Color := Color.black

/-- DefaultShadowColor is the default of the ShadowColor option
(`cell.Color(250)`). -/
def DefaultShadowColor : Color := Color.value 250

/-- DefaultHeight is the default for the Height option. -/
def DefaultHeight : Int := 2

/-- DefaultKey is the default value for the Key option
(`keyboard.KeyEnter`). -/
def DefaultKey : KeyboardKey := KeyboardKey.Enter

/-- The message built by `validate` when the height is below the
minimum: `fmt.Errorf("invalid height %d, must be %d <= height", ...)`. -/
def invalidHeightMsg (v lo : Int) : String :=
  "invalid height " ++ toString v ++ ", must be " ++ toString lo ++ " <= height"

/-- The message built by `validate` when the width is below the
minimum: `fmt.Errorf("invalid width %d, must be %d <= width", ...)`. -/
def invalidWidthMsg (v lo : Int) : String :=
  "invalid width " ++ toString v ++ ", must be " ++ toString lo ++ " <= width"

/-- validate validates the provided options (options.go): the height
check runs first, then the width check; `none` means no error. -/
def validate (o : options) : Option String :=
  if o.height < 1 then some (invalidHeightMsg o.height 1)
  else if o.width < 1 then some (invalidWidthMsg o.width 1)
  else none

/-- newOptions returns options with the default values set (options.go).
The Go literal omits the `key` field, so it is left at the zero value of
the key type. -/
def newOptions (textWidth : Int) : options :=
  { fillColor := DefaultFillColor
    textColor := DefaultTextColor
    shadowColor := DefaultShadowColor
    height := DefaultHeight
    width := textWidth + 2
    key := KeyboardKey.uninit }

/-- The Go `Option` interface: an opaque deferred mutation of the
`options` record.  Any function on the record is admissible, exactly as
any `func(*options)` implements the interface. -/
abbrev OptionF := options → options

/-- FillColor sets the fill color of the button (options.go). -/
def FillColor (c : Color) : OptionF :=
  fun opts => { opts with fillColor := c }

/-- TextColor sets the color of the text label in the button
(options.go). -/
def TextColor (c : Color) : OptionF :=
  fun opts => { opts with textColor := c }

/-- ShadowColor sets the color of the shadow under the button
(options.go). -/
def ShadowColor (c : Color) : OptionF :=
  fun opts => { opts with shadowColor := c }

/-- Height sets the height of the button in cells (options.go). -/
def Height (cells : Int) : OptionF :=
  fun opts => { opts with height := cells }

/-- Width sets the width of the button in cells (options.go). -/
def Width (cells : Int) : OptionF :=
  fun opts => { opts with width := cells }

/-- Key configures the keyboard key that presses the button
(options.go). -/
def Key (k : KeyboardKey) : OptionF :=
  fun opts => { opts with key := k }

/-- Sequential application of the supplied options, in order, as the
widget constructor's `for _, o := range opts { o.set(opt) }` loop does. -/
def applyAll (opts : List OptionF) (o : options) : options :=
  opts.foldl (fun acc f => f acc) o

/-- Modelled from the spec: the record after defaults and option
application, before validation.  The widget constructor driving the
pipeline is not under src/; per the spec, every field has a defined value
prior to validation, the activation key defaulting to Enter unless a Key
option overrides it, so the default key is assigned before the options
are applied. -/
def applied (textWidth : Int) (opts : List OptionF) : options :=
  applyAll opts { newOptions textWidth with key := DefaultKey }

/-- Modelled from the spec: the construction pipeline — defaults,
sequential application, then a single validation step whose error, if
any, is returned to the caller. -/
def newConfig (textWidth : Int) (opts : List OptionF) : Except String options :=
  match validate (applied textWidth opts) with
  | some e => Except.error e
  | none => Except.ok (applied textWidth opts)

/-- The `writeOptions` record storing the provided write options
(write_options.go).  The Go `&writeOptions{}` starts with a nil slice,
modelled as the empty list. -/
structure writeOptions where
  cellOpts : List CellOption
deriving DecidableEq

/-- setDefaultFgColor (write_options.go): prepends a foreground-color
directive, `append([]cell.Option{cell.FgColor(c)}, wo.cellOpts...)`. -/
def writeOptions.setDefaultFgColor (wo : writeOptions) (c : Color) : writeOptions :=
  { wo with cellOpts := [CellOption.FgColor c] ++ wo.cellOpts }

/-- The Go `WriteOption` interface: an opaque deferred mutation of the
`writeOptions` record. -/
abbrev WriteOptionF := writeOptions → writeOptions

/-- WriteCellOpts sets options on the cells that contain the text
(write_options.go): it overwrites the whole list. -/
def WriteCellOpts (opts : List CellOption) : WriteOptionF :=
  fun wOpts => { wOpts with cellOpts := opts }

/-- newWriteOptions returns a new writeOptions instance
(write_options.go): start empty, apply each option in order. -/
def newWriteOptions (wOpts : List WriteOptionF) : writeOptions :=
  wOpts.foldl (fun acc f => f acc) { cellOpts := [] }

/-- Whether a styling list already contains a foreground-color
directive.  This predicate follows the spec's words (scan the list for a
foreground-color variant); the source performs no such scan, and this
definition exists to state that difference. -/
def fgPresent (l : List CellOption) : Bool :=
  l.any fun d =>
    match d with
    | CellOption.FgColor _ => true
    | CellOption.BgColor _ => false

/-- Validation succeeds exactly when both dimensions meet the minimum. -/
theorem validate_none_iff (o : options) :
    validate o = none ↔ 1 ≤ o.height ∧ 1 ≤ o.width := by
  unfold validate
  by_cases h1 : o.height < 1
  · simp only [if_pos h1]
    constructor
    · intro h
      exact Option.noConfusion h
    · intro hb
      exact absurd hb.1 (by omega)
  · by_cases h2 : o.width < 1
    · simp only [if_neg h1, if_pos h2]
      constructor
      · intro h
        exact Option.noConfusion h
      · intro hb
        exact absurd hb.2 (by omega)
    · simp only [if_neg h1, if_neg h2]
      constructor
      · intro _
        exact ⟨by omega, by omega⟩
      · intro _
        trivial

/-- The only two errors `validate` can produce, with the height check
running first. -/
theorem validate_some_iff (o : options) (e : String) :
    validate o = some e ↔
      (o.height < 1 ∧ e = invalidHeightMsg o.height 1) ∨
      (1 ≤ o.height ∧ o.width < 1 ∧ e = invalidWidthMsg o.width 1) := by
  unfold validate
  by_cases h1 : o.height < 1
  · simp only [if_pos h1]
    constructor
    · intro h
      exact Or.inl ⟨h1, (Option.some.inj h).symm⟩
    · rintro (⟨_, h⟩ | ⟨hle, _, _⟩)
      · exact congrArg some h.symm
      · exact absurd hle (by omega)
  · by_cases h2 : o.width < 1
    · simp only [if_neg h1, if_pos h2]
      constructor
      · intro h
        exact Or.inr ⟨by omega, h2, (Option.some.inj h).symm⟩
      · rintro (⟨hlt, _⟩ | ⟨_, _, h⟩)
        · exact absurd hlt h1
        · exact congrArg some h.symm
    · simp only [if_neg h1, if_neg h2]
      constructor
      · intro h
        exact Option.noConfusion h
      · rintro (⟨hlt, _⟩ | ⟨_, hlt, _⟩)
        · exact absurd hlt h1
        · exact absurd hlt h2

/-- Construction succeeds exactly when validation of the post-application
record passes, and then returns that record unchanged. -/
theorem newConfig_ok_iff (L : Int) (opts : List OptionF) (o : options) :
    newConfig L opts = Except.ok o ↔
      validate (applied L opts) = none ∧ o = applied L opts := by
  unfold newConfig
  cases hv : validate (applied L opts) with
  | none => simp [eq_comm]
  | some e => simp

/-- Construction fails exactly with the message validation produces. -/
theorem newConfig_error_iff (L : Int) (opts : List OptionF) (e : String) :
    newConfig L opts = Except.error e ↔
      validate (applied L opts) = some e := by
  unfold newConfig
  cases hv : validate (applied L opts) with
  | none => simp
  | some m => simp

/-- C2: applying an empty option list for label length 4 yields exactly
the default record: width 6, height 2, fill color cyan, text color
black, shadow color 250 and activation key Enter. -/
theorem C2_empty_option_list_gives_defaults :
    newConfig 4 [] = Except.ok
      { fillColor := Color.cyan, textColor := Color.black,
        shadowColor := Color.value 250, height := 2, width := 6,
        key := KeyboardKey.Enter } := rfl

/-- C3: construction fails iff the post-application height or width is
below 1; every error is the height message or the width message, citing
the offending value and the minimum 1; for `Height 0` the message
contains "height 0, must be 1 <= height"; for height at least 1 with a
valid width, construction succeeds with exactly that height; a record
that passes validation is returned unchanged, never corrected. -/
theorem C3_invalid_dimension_errors :
    (∀ L opts, (∃ o, newConfig L opts = Except.ok o) ↔
        1 ≤ (applied L opts).height ∧ 1 ≤ (applied L opts).width) ∧
    (∀ L opts e, newConfig L opts = Except.error e →
        ((applied L opts).height < 1 ∧
          e = invalidHeightMsg (applied L opts).height 1) ∨
        ((applied L opts).width < 1 ∧
          e = invalidWidthMsg (applied L opts).width 1)) ∧
    (∀ L opts o, newConfig L opts = Except.ok o → o = applied L opts) ∧
    (∃ pre post, newConfig 4 [Height 0] =
        Except.error (pre ++ "height 0, must be 1 <= height" ++ post)) ∧
    (∀ L h, 1 ≤ h → 1 ≤ (applied L [Height h]).width →
        newConfig L [Height h] = Except.ok (applied L [Height h]) ∧
        (applied L [Height h]).height = h) := by
  refine ⟨?_, ?_, ?_, ?_, ?_⟩
  · intro L opts
    constructor
    · rintro ⟨o, ho⟩
      exact (validate_none_iff _).mp ((newConfig_ok_iff L opts o).mp ho).1
    · intro hb
      exact ⟨applied L opts,
        (newConfig_ok_iff L opts _).mpr ⟨(validate_none_iff _).mpr hb, rfl⟩⟩
  · intro L opts e he
    rcases (validate_some_iff _ _).mp ((newConfig_error_iff L opts e).mp he) with
      ⟨h1, h2⟩ | ⟨_, h1, h2⟩
    · exact Or.inl ⟨h1, h2⟩
    · exact Or.inr ⟨h1, h2⟩
  · intro L opts o ho
    exact ((newConfig_ok_iff L opts o).mp ho).2
  · exact ⟨"invalid ", "", rfl⟩
  · intro L h hh hw
    exact ⟨(newConfig_ok_iff L _ _).mpr
      ⟨(validate_none_iff _).mpr ⟨hh, hw⟩, rfl⟩, rfl⟩

/-- Witness for C3 at label length 4 with the single option `Height 2`. -/
theorem C3_witness :
    newConfig 4 [Height 2] = Except.ok (applied 4 [Height 2]) ∧
    (applied 4 [Height 2]).height = 2 :=
  C3_invalid_dimension_errors.2.2.2.2 4 2 (by decide) (by decide)

/-- C4: for every label length L at least 0, the default record has
width L + 2. -/
theorem C4_default_width (L : Int) (h : 0 ≤ L) :
    (newOptions L).width = L + 2 := rfl

/-- Witness for C4 at label length 4. -/
theorem C4_witness : 0 ≤ (4 : Int) ∧ (newOptions 4).width = 4 + 2 :=
  ⟨by decide, C4_default_width 4 (by decide)⟩

/-- C5: applying two options built by the same constructor in sequence
leaves the record reflecting only the later value, for every field; in
particular Height 3 then Height 5 yields height 5. -/
theorem C5_last_write_wins :
    (∀ o a b, applyAll [FillColor a, FillColor b] o = applyAll [FillColor b] o) ∧
    (∀ o a b, applyAll [TextColor a, TextColor b] o = applyAll [TextColor b] o) ∧
    (∀ o a b, applyAll [ShadowColor a, ShadowColor b] o = applyAll [ShadowColor b] o) ∧
    (∀ o a b, applyAll [Height a, Height b] o = applyAll [Height b] o) ∧
    (∀ o a b, applyAll [Width a, Width b] o = applyAll [Width b] o) ∧
    (∀ o a b, applyAll [Key a, Key b] o = applyAll [Key b] o) ∧
    (∀ o, (applyAll [Height 3, Height 5] o).height = 5) := by
  refine ⟨?_, ?_, ?_, ?_, ?_, ?_, ?_⟩ <;> intros <;> rfl

/-- C6: WriteCellOpts applied twice with lists A then B yields a styling
list equal to B, not A concatenated with B. -/
theorem C6_writeCellOpts_replaces (A B : List CellOption) :
    (newWriteOptions [WriteCellOpts A, WriteCellOpts B]).cellOpts = B := rfl

/-- C7: validation runs once on the final record, so any option list
whose final record is valid constructs successfully, even when a strict
prefix of the list leaves the record invalid, as with Height 0 followed
by Height 2. -/
theorem C7_validation_only_at_end :
    (∀ L opts, 1 ≤ (applied L opts).height → 1 ≤ (applied L opts).width →
        newConfig L opts = Except.ok (applied L opts)) ∧
    newConfig 4 [Height 0, Height 2] =
      Except.ok (applied 4 [Height 0, Height 2]) ∧
    (applied 4 [Height 0]).height < 1 := by
  refine ⟨?_, rfl, by decide⟩
  intro L opts h1 h2
  exact (newConfig_ok_iff L opts _).mpr ⟨(validate_none_iff _).mpr ⟨h1, h2⟩, rfl⟩

/-- Witness for C7 at label length 4 with Height 0 then Height 2. -/
theorem C7_witness :
    newConfig 4 [Height 0, Height 2] =
      Except.ok (applied 4 [Height 0, Height 2]) :=
  C7_validation_only_at_end.1 4 [Height 0, Height 2] (by decide) (by decide)

/-- C8: every public constructor assigns exactly one field of the target
record to its argument and leaves every other field unchanged. -/
theorem C8_constructors_set_one_field :
    (∀ o c, (FillColor c o).fillColor = c ∧ (FillColor c o).textColor = o.textColor ∧
        (FillColor c o).shadowColor = o.shadowColor ∧ (FillColor c o).height = o.height ∧
        (FillColor c o).width = o.width ∧ (FillColor c o).key = o.key) ∧
    (∀ o c, (TextColor c o).textColor = c ∧ (TextColor c o).fillColor = o.fillColor ∧
        (TextColor c o).shadowColor = o.shadowColor ∧ (TextColor c o).height = o.height ∧
        (TextColor c o).width = o.width ∧ (TextColor c o).key = o.key) ∧
    (∀ o c, (ShadowColor c o).shadowColor = c ∧ (ShadowColor c o).fillColor = o.fillColor ∧
        (ShadowColor c o).textColor = o.textColor ∧ (ShadowColor c o).height = o.height ∧
        (ShadowColor c o).width = o.width ∧ (ShadowColor c o).key = o.key) ∧
    (∀ o n, (Height n o).height = n ∧ (Height n o).fillColor = o.fillColor ∧
        (Height n o).textColor = o.textColor ∧ (Height n o).shadowColor = o.shadowColor ∧
        (Height n o).width = o.width ∧ (Height n o).key = o.key) ∧
    (∀ o n, (Width n o).width = n ∧ (Width n o).fillColor = o.fillColor ∧
        (Width n o).textColor = o.textColor ∧ (Width n o).shadowColor = o.shadowColor ∧
        (Width n o).height = o.height ∧ (Width n o).key = o.key) ∧
    (∀ o k, (Key k o).key = k ∧ (Key k o).fillColor = o.fillColor ∧
        (Key k o).textColor = o.textColor ∧ (Key k o).shadowColor = o.shadowColor ∧
        (Key k o).height = o.height ∧ (Key k o).width = o.width) ∧
    (∀ wo l, (WriteCellOpts l wo).cellOpts = l) := by
  refine ⟨?_, ?_, ?_, ?_, ?_, ?_, fun _ _ => rfl⟩ <;> intros <;>
    exact ⟨rfl, rfl, rfl, rfl, rfl, rfl⟩

/-- C9: setDefaultFgColor always produces FgColor c consed onto the old
styling list: the length grows by exactly one and the old entries are
preserved in order as the suffix, whatever the list held. -/
theorem C9_setDefaultFgColor_prepends (wo : writeOptions) (c : Color) :
    (wo.setDefaultFgColor c).cellOpts = CellOption.FgColor c :: wo.cellOpts ∧
    (wo.setDefaultFgColor c).cellOpts.length = wo.cellOpts.length + 1 :=
  ⟨rfl, rfl⟩

/-- C1 counterexample: a styling list that already contains a
foreground-color directive is not left unchanged — setDefaultFgColor
still prepends another foreground-color directive. -/
theorem C1_counterexample :
    fgPresent [CellOption.FgColor Color.black] = true ∧
    (writeOptions.setDefaultFgColor ⟨[CellOption.FgColor Color.black]⟩
        Color.cyan).cellOpts ≠ [CellOption.FgColor Color.black] := by
  exact ⟨rfl, by decide⟩

/-- C1 amended: setDefaultFgColor unconditionally inserts exactly one
foreground-color directive at the front, whether or not the list already
contains one; it never removes entries, always adds exactly one, and
keeps the pre-existing entries as the suffix. -/
theorem C1_amended_unconditional_insert (wo : writeOptions) (c : Color) :
    ((wo.setDefaultFgColor c).cellOpts).head? = some (CellOption.FgColor c) ∧
    ((wo.setDefaultFgColor c).cellOpts).tail = wo.cellOpts ∧
    ((wo.setDefaultFgColor c).cellOpts).length = wo.cellOpts.length + 1 :=
  ⟨rfl, rfl, rfl⟩

/-- C10: when both the height and the width are below 1, validation
returns the height error, citing the height value — the height check
runs first. -/
theorem C10_height_checked_first (o : options) (hh : o.height < 1)
    (hw : o.width < 1) :
    validate o = some (invalidHeightMsg o.height 1) := by
  unfold validate
  rw [if_pos hh]

/-- Witness for C10 on a record with height 0 and width 0. -/
theorem C10_witness :
    validate { fillColor := Color.cyan, textColor := Color.black,
               shadowColor := Color.value 250, height := 0, width := 0,
               key := KeyboardKey.Enter } = some (invalidHeightMsg 0 1) :=
  C10_height_checked_first _ (by decide) (by decide)

end Termdash
